import Mathlib

/-!
Shallow embedding of the gocl event/completion subsystem, translated from
`gocl-event.c`, `gocl-error.c`, `gocl-buffer.c` and `gocl-kernel.c`.

External GLib/OpenCL primitives are represented abstractly:
native handles (`cl_event`, `cl_command_queue`), callbacks, user data and
main contexts are opaque identifiers (`Nat`); a NULL pointer is `none`.
Side effects that leave the event code (attaching an idle/timeout source via
`timeout_add`, spawning the waiter thread via `g_thread_new`, invoking a
callback) are recorded as explicit `Action` values in the order the code
performs them.
-/

namespace Gocl

/-- An OpenCL status code (`cl_int`). -/
abbrev ClInt := Int

def CL_SUCCESS : ClInt := 0
def CL_DEVICE_NOT_FOUND : ClInt := -1
def CL_DEVICE_NOT_AVAILABLE : ClInt := -2
def CL_COMPILER_NOT_AVAILABLE : ClInt := -3
def CL_MEM_OBJECT_ALLOCATION_FAILURE : ClInt := -4
def CL_OUT_OF_RESOURCES : ClInt := -5
def CL_OUT_OF_HOST_MEMORY : ClInt := -6
def CL_PROFILING_INFO_NOT_AVAILABLE : ClInt := -7
def CL_MEM_COPY_OVERLAP : ClInt := -8
def CL_IMAGE_FORMAT_MISMATCH : ClInt := -9
def CL_IMAGE_FORMAT_NOT_SUPPORTED : ClInt := -10
def CL_BUILD_PROGRAM_FAILURE : ClInt := -11
def CL_MAP_FAILURE : ClInt := -12
def CL_INVALID_VALUE : ClInt := -30
def CL_INVALID_DEVICE_TYPE : ClInt := -31
def CL_INVALID_PLATFORM : ClInt := -32
def CL_INVALID_DEVICE : ClInt := -33
def CL_INVALID_CONTEXT : ClInt := -34
def CL_INVALID_QUEUE_PROPERTIES : ClInt := -35
def CL_INVALID_COMMAND_QUEUE : ClInt := -36
def CL_INVALID_HOST_PTR : ClInt := -37
def CL_INVALID_MEM_OBJECT : ClInt := -38
def CL_INVALID_IMAGE_FORMAT_DESCRIPTOR : ClInt := -39
def CL_INVALID_IMAGE_SIZE : ClInt := -40
def CL_INVALID_SAMPLER : ClInt := -41
def CL_INVALID_BINARY : ClInt := -42
def CL_INVALID_BUILD_OPTIONS : ClInt := -43
def CL_INVALID_PROGRAM : ClInt := -44
def CL_INVALID_PROGRAM_EXECUTABLE : ClInt := -45
def CL_INVALID_KERNEL_NAME : ClInt := -46
def CL_INVALID_KERNEL_DEFINITION : ClInt := -47
def CL_INVALID_KERNEL : ClInt := -48
def CL_INVALID_ARG_INDEX : ClInt := -49
def CL_INVALID_ARG_VALUE : ClInt := -50
def CL_INVALID_ARG_SIZE : ClInt := -51
def CL_INVALID_KERNEL_ARGS : ClInt := -52
def CL_INVALID_WORK_DIMENSION : ClInt := -53
def CL_INVALID_WORK_GROUP_SIZE : ClInt := -54
def CL_INVALID_WORK_ITEM_SIZE : ClInt := -55
def CL_INVALID_GLOBAL_OFFSET : ClInt := -56
def CL_INVALID_EVENT_WAIT_LIST : ClInt := -57
def CL_INVALID_EVENT : ClInt := -58
def CL_INVALID_OPERATION : ClInt := -59
def CL_INVALID_GL_OBJECT : ClInt := -60
def CL_INVALID_BUFFER_SIZE : ClInt := -61
def CL_INVALID_MIP_LEVEL : ClInt := -62

/-- `get_error_code_description` (gocl-error.c): the fixed code-to-text table.
The C `switch` is rendered as a chain of equality tests. -/
def get_error_code_description (err_code : ClInt) : String :=
  if err_code = CL_SUCCESS then "Success!"
  else if err_code = CL_DEVICE_NOT_FOUND then "Device not found."
  else if err_code = CL_DEVICE_NOT_AVAILABLE then "Device not available"
  else if err_code = CL_COMPILER_NOT_AVAILABLE then "Compiler not available"
  else if err_code = CL_MEM_OBJECT_ALLOCATION_FAILURE then "Memory object allocation failure"
  else if err_code = CL_OUT_OF_RESOURCES then "Out of resources"
  else if err_code = CL_OUT_OF_HOST_MEMORY then "Out of host memory"
  else if err_code = CL_PROFILING_INFO_NOT_AVAILABLE then "Profiling information not available"
  else if err_code = CL_MEM_COPY_OVERLAP then "Memory copy overlap"
  else if err_code = CL_IMAGE_FORMAT_MISMATCH then "Image format mismatch"
  else if err_code = CL_IMAGE_FORMAT_NOT_SUPPORTED then "Image format not supported"
  else if err_code = CL_BUILD_PROGRAM_FAILURE then "Program build failure"
  else if err_code = CL_MAP_FAILURE then "Map failure"
  else if err_code = CL_INVALID_VALUE then "Invalid value"
  else if err_code = CL_INVALID_DEVICE_TYPE then "Invalid device type"
  else if err_code = CL_INVALID_PLATFORM then "Invalid platform"
  else if err_code = CL_INVALID_DEVICE then "Invalid device"
  else if err_code = CL_INVALID_CONTEXT then "Invalid context"
  else if err_code = CL_INVALID_QUEUE_PROPERTIES then "Invalid queue properties"
  else if err_code = CL_INVALID_COMMAND_QUEUE then "Invalid command queue"
  else if err_code = CL_INVALID_HOST_PTR then "Invalid host pointer"
  else if err_code = CL_INVALID_MEM_OBJECT then "Invalid memory object"
  else if err_code = CL_INVALID_IMAGE_FORMAT_DESCRIPTOR then "Invalid image format descriptor"
  else if err_code = CL_INVALID_IMAGE_SIZE then "Invalid image size"
  else if err_code = CL_INVALID_SAMPLER then "Invalid sampler"
  else if err_code = CL_INVALID_BINARY then "Invalid binary"
  else if err_code = CL_INVALID_BUILD_OPTIONS then "Invalid build options"
  else if err_code = CL_INVALID_PROGRAM then "Invalid program"
  else if err_code = CL_INVALID_PROGRAM_EXECUTABLE then "Invalid program executable"
  else if err_code = CL_INVALID_KERNEL_NAME then "Invalid kernel name"
  else if err_code = CL_INVALID_KERNEL_DEFINITION then "Invalid kernel definition"
  else if err_code = CL_INVALID_KERNEL then "Invalid kernel"
  else if err_code = CL_INVALID_ARG_INDEX then "Invalid argument index"
  else if err_code = CL_INVALID_ARG_VALUE then "Invalid argument value"
  else if err_code = CL_INVALID_ARG_SIZE then "Invalid argument size"
  else if err_code = CL_INVALID_KERNEL_ARGS then "Invalid kernel arguments"
  else if err_code = CL_INVALID_WORK_DIMENSION then "Invalid work dimension"
  else if err_code = CL_INVALID_WORK_GROUP_SIZE then "Invalid work group size"
  else if err_code = CL_INVALID_WORK_ITEM_SIZE then "Invalid work item size"
  else if err_code = CL_INVALID_GLOBAL_OFFSET then "Invalid global offset"
  else if err_code = CL_INVALID_EVENT_WAIT_LIST then "Invalid event wait list"
  else if err_code = CL_INVALID_EVENT then "Invalid event"
  else if err_code = CL_INVALID_OPERATION then "Invalid operation"
  else if err_code = CL_INVALID_GL_OBJECT then "Invalid OpenGL object"
  else if err_code = CL_INVALID_BUFFER_SIZE then "Invalid buffer size"
  else if err_code = CL_INVALID_MIP_LEVEL then "Invalid mip-map level"
  else "Unknown"

/-- A `GError` in the `GOCL_OPENCL_ERROR` domain, as built by
`g_set_error_literal` in gocl-error.c: a status code plus its description. -/
structure GErr where
  code : ClInt
  message : String
deriving Repr, DecidableEq

/-- `gocl_error_check_opencl` (gocl-error.c): returns TRUE when `err_code`
is an error, together with the `GError` it stores through the out
parameter (none on success). -/
def gocl_error_check_opencl (err_code : ClInt) : Bool × Option GErr :=
  if err_code ≠ CL_SUCCESS then
    (true, some ⟨err_code, get_error_code_description err_code⟩)
  else
    (false, none)

/-- `gocl_error_check_opencl_internal` (gocl-error.c): first clears the
process-wide `last_error` slot (so the result never depends on
`last_error`), then fills it when `err_code` is an error. Returns
whether there was an error and the new contents of the slot. -/
def gocl_error_check_opencl_internal (err_code : ClInt) (last_error : Option GErr) :
    Bool × Option GErr :=
  let _cleared : Option GErr := none
  if err_code ≠ CL_SUCCESS then
    (true, some ⟨err_code, get_error_code_description err_code⟩)
  else
    (false, none)

/-- The `Closure` struct of gocl-event.c: the registered callback, its user
data, and the `GMainContext` captured by `g_main_context_get_thread_default`
at registration time. The `self` back reference (pure reference counting) is
not part of the model. A callback identifier of `0` stands for NULL. -/
structure Closure where
  callback : Nat
  user_data : Nat
  context : Nat
deriving Repr, DecidableEq

/-- Externally visible effects performed by the event code, in program order. -/
inductive Action where
  /-- `timeout_add` attaching an idle source on `context` that will run
  `notify_event_completed_in_caller_context` for closure `c`. -/
  | scheduleNotify (context : Nat) (c : Closure)
  /-- a callback invoked directly on the current stack (the event code never
  emits this from `gocl_event_then`; it happens only when a previously
  attached idle source fires). -/
  | invokeCallback (c : Closure) (error : Option GErr)
  /-- `g_thread_new` starting `wait_event_thread_func` (the background waiter). -/
  | spawnWaiter
  /-- `timeout_add` on the default context attaching an idle source that will
  run `event_completed` (done from the waiter thread after the wait returns). -/
  | scheduleComplete
  /-- `timeout_add` attaching the low-priority idle source running
  `unref_in_idle`. -/
  | scheduleUnref
deriving Repr, DecidableEq

/-- The `GoclEventPrivate` struct of gocl-event.c. `event` is the native
`cl_event` handle (`none` for NULL), `queue` the associated `GoclQueue`,
`resolver_func` the stored resolver function pointer (`some ()` stands for
the `gocl_event_resolve` pointer installed at init, `none` for NULL after a
steal), `thread` whether a waiter `GThread` handle is held.
`event_wait_list` is the wait list retained via
`gocl_event_set_event_wait_list`. -/
structure GoclEventPrivate where
  event : Option Nat
  queue : Option Nat
  error : Option GErr
  resolver_func : Option Unit
  already_resolved : Bool
  waiting_event : Bool
  closure_list : List Closure
  thread : Bool
  complete_src_id : Nat
  unref_src_id : Nat
  event_wait_list : List Nat
deriving Repr, DecidableEq

/-- `gocl_event_init` followed by the construct-time `set_property` calls of
`g_object_new` (gocl-event.c): every field as initialized in
`gocl_event_init`, then the "queue" and "event" construct properties set. -/
def gocl_event_new (queue : Option Nat) (event : Option Nat) : GoclEventPrivate :=
  { event := event
    queue := queue
    error := none
    resolver_func := some ()
    already_resolved := false
    waiting_event := false
    closure_list := []
    thread := false
    complete_src_id := 0
    unref_src_id := 0
    event_wait_list := [] }

/-- `gocl_event_resolve` (gocl-event.c): `g_return_if_fail
(!already_resolved)` makes a call on an already-resolved event return with
no effect; otherwise the event is marked resolved and, when an error is
given, a copy of it is stored. -/
def gocl_event_resolve (s : GoclEventPrivate) (error : Option GErr) : GoclEventPrivate :=
  if s.already_resolved then s
  else
    match error with
    | some e => { s with already_resolved := true, error := some e }
    | none => { s with already_resolved := true }

/-- `gocl_event_steal_resolver_func` (gocl-event.c): returns the stored
resolver function and sets the field to NULL. -/
def gocl_event_steal_resolver_func (s : GoclEventPrivate) :
    Option Unit × GoclEventPrivate :=
  (s.resolver_func, { s with resolver_func := none })

/-- `notify_event_completed_in_caller_context` (gocl-event.c): the body of the
idle source attached for a closure; it invokes the closure's callback with
the event's stored error as it is at firing time. -/
def notify_event_completed_in_caller_context (s : GoclEventPrivate) (c : Closure) :
    Action :=
  Action.invokeCallback c s.error

/-- `event_completed` (gocl-event.c): runs on the default context once the
waiter observed completion; clears `complete_src_id`, marks the event
resolved and no longer waiting, attaches one idle source per queued closure
on that closure's captured context (in list order), and frees the list. -/
def event_completed (s : GoclEventPrivate) : GoclEventPrivate × List Action :=
  let s := { s with
               complete_src_id := 0
               already_resolved := true
               waiting_event := false }
  let acts := s.closure_list.map (fun c => Action.scheduleNotify c.context c)
  ({ s with closure_list := [] }, acts)

/-- `wait_event_thread_func` (gocl-event.c): blocks in `clWaitForEvents`,
whose return status the code discards, then attaches an idle source on the
default context that will run `event_completed`. The returned actions do not
depend on `wait_status`. -/
def wait_event_thread_func (wait_status : ClInt) : List Action :=
  let _ignored : ClInt := wait_status
  [Action.scheduleComplete]

/-- `gocl_event_then` (gocl-event.c). `callback = 0` models a NULL callback,
rejected by `g_return_if_fail`. Builds a closure capturing the thread-default
`context`. Branches exactly as the source: already resolved schedules the
notification; pending and not yet waiting asserts the native handle
(`none` makes the `g_assert` fail fatally, modelled as `none`), marks
waiting, appends the closure and spawns the waiter thread; pending and
already waiting falls off the end of the function (no branch taken). -/
def gocl_event_then (s : GoclEventPrivate) (callback user_data context : Nat) :
    Option (GoclEventPrivate × List Action) :=
  if callback = 0 then some (s, [])
  else
    let closure : Closure := ⟨callback, user_data, context⟩
    if s.already_resolved then
      some (s, [Action.scheduleNotify closure.context closure])
    else if ! s.waiting_event then
      match s.event with
      | none => none
      | some _ =>
          some ({ s with
                    waiting_event := true
                    closure_list := s.closure_list ++ [closure]
                    thread := true },
                [Action.spawnWaiter])
    else
      some (s, [])

/-- `gocl_event_idle_unref` (gocl-event.c): returns at once when
`unref_src_id` is already set; otherwise stores the source id returned by
`timeout_add` (`src_id`, the `g_source_attach` result) and schedules the
single idle dereference. Nothing in gocl-event.c ever resets
`unref_src_id`. -/
def gocl_event_idle_unref (s : GoclEventPrivate) (src_id : Nat) :
    GoclEventPrivate × List Action :=
  if s.unref_src_id ≠ 0 then (s, [])
  else ({ s with unref_src_id := src_id }, [Action.scheduleUnref])

/-- Modelled from the spec: `gocl_event_set_event_wait_list` is called by the
dispatch operations (gocl-buffer.c, gocl-device.c) but its definition is not
among the provided sources. Per the spec, the event retains the wait list of
the submission that created it. -/
def gocl_event_set_event_wait_list (s : GoclEventPrivate) (l : List Nat) :
    GoclEventPrivate :=
  { s with event_wait_list := l }

/-- `gocl_buffer_read` (gocl-buffer.c), from the `clEnqueueReadBuffer` call
on. `err_code` is the native status the enqueue returned, `native_event` the
`cl_event` handle it produced on success, `wait_list` the native handles of
the upstream events, `unref_src` the source id of the final
`gocl_event_idle_unref` attach. On failure a fresh event with no native
handle is created, its resolver stolen and called with the translated error
(then the `GError` is freed); on success a fresh event wrapping the handle
is created, its wait list retained and its resolver stolen (discarded). -/
def gocl_buffer_read (queue : Nat) (err_code : ClInt) (native_event : Nat)
    (wait_list : List Nat) (unref_src : Nat) :
    GoclEventPrivate × List Action :=
  let checked := gocl_error_check_opencl err_code
  if checked.fst then
    let e0 := gocl_event_new (some queue) none
    let stolen := gocl_event_steal_resolver_func e0
    let e1 := gocl_event_resolve stolen.snd checked.snd
    gocl_event_idle_unref e1 unref_src
  else
    let e0 := gocl_event_new (some queue) (some native_event)
    let e1 := gocl_event_set_event_wait_list e0 wait_list
    let e2 := (gocl_event_steal_resolver_func e1).snd
    gocl_event_idle_unref e2 unref_src

/-- `gocl_buffer_read_sync` (gocl-buffer.c), from the blocking
`clEnqueueReadBuffer` call on: no `GoclEvent` is constructed (the return
type carries no event state and the action trace is empty); the result is
`!gocl_error_check_opencl_internal (err_code)` together with the new
contents of the process-wide `last_error` slot. -/
def gocl_buffer_read_sync (err_code : ClInt) (last_error : Option GErr) :
    Bool × Option GErr :=
  let p := gocl_error_check_opencl_internal err_code last_error
  (! p.fst, p.snd)

/-- `gocl_kernel_run_in_device` (gocl-kernel.c). `queue` is the result of
`gocl_device_get_default_queue` (`none` when it failed, with `queue_error`
the error it reported); `err_code` is the `clEnqueueNDRangeKernel` status
and `native_event` the handle it produced on success; `unref_src` is the
source id of the final `gocl_event_idle_unref` attach. The event is created
up front with no native handle and its resolver stolen immediately. When the
queue is missing, the stolen resolver is called with `queue_error`. When the
enqueue fails, the source steals the resolver a second time (obtaining NULL,
since it was already stolen) and jumps to `out` without resolving. On
success the first event is dropped and a fresh one wrapping the handle is
created, with its resolver stolen and discarded. -/
def gocl_kernel_run_in_device (queue : Option Nat) (queue_error : Option GErr)
    (err_code : ClInt) (native_event : Nat) (unref_src : Nat) :
    GoclEventPrivate × List Action :=
  let e0 := gocl_event_new queue none
  let stolen := gocl_event_steal_resolver_func e0
  match queue with
  | none =>
      let e1 := gocl_event_resolve stolen.snd queue_error
      gocl_event_idle_unref e1 unref_src
  | some q =>
      let checked := gocl_error_check_opencl err_code
      if checked.fst then
        let stolen2 := gocl_event_steal_resolver_func stolen.snd
        gocl_event_idle_unref stolen2.snd unref_src
      else
        let f0 := gocl_event_new (some q) (some native_event)
        let f1 := (gocl_event_steal_resolver_func f0).snd
        gocl_event_idle_unref f1 unref_src

/-- An operation applied to one event during its lifetime. -/
inductive EventOp where
  | thenOp (callback user_data context : Nat)
  | resolveOp (error : Option GErr)
  /-- the idle source attached by the waiter fires, running `event_completed`. -/
  | completedOp
  | stealOp
  /-- `gocl_event_idle_unref` with `src_id` the id `timeout_add` returns. -/
  | idleUnrefOp (src_id : Nat)
deriving Repr, DecidableEq

/-- One step of an event's lifetime: the new state, the emitted actions, and
the resolver returned when the operation was `stealOp`. `none` when the
operation hit the fatal `g_assert` in `gocl_event_then`. -/
def step (s : GoclEventPrivate) (op : EventOp) :
    Option (GoclEventPrivate × List Action × Option Unit) :=
  match op with
  | .thenOp cb ud ctx =>
      match gocl_event_then s cb ud ctx with
      | none => none
      | some p => some (p.fst, p.snd, none)
  | .resolveOp e => some (gocl_event_resolve s e, [], none)
  | .completedOp =>
      let p := event_completed s
      some (p.fst, p.snd, none)
  | .stealOp =>
      let p := gocl_event_steal_resolver_func s
      some (p.snd, [], p.fst)
  | .idleUnrefOp src =>
      let p := gocl_event_idle_unref s src
      some (p.fst, p.snd, none)

/-- Outcome of running a sequence of operations on an event: final state,
concatenated action trace, and how many `stealOp`s obtained the resolver. -/
structure RunResult where
  state : GoclEventPrivate
  actions : List Action
  steals : Nat
deriving Repr, DecidableEq

/-- Run a sequence of operations on an event; `none` when some operation hit
the fatal assertion. -/
def run (s : GoclEventPrivate) : List EventOp → Option RunResult
  | [] => some ⟨s, [], 0⟩
  | op :: rest =>
      match step s op with
      | none => none
      | some (s1, acts, stole) =>
          match run s1 rest with
          | none => none
          | some r =>
              some ⟨r.state, acts ++ r.actions,
                    (if stole.isSome then 1 else 0) + r.steals⟩

/-- Number of waiter threads spawned in an action trace. -/
def countSpawn : List Action → Nat
  | [] => 0
  | Action.spawnWaiter :: rest => countSpawn rest + 1
  | _ :: rest => countSpawn rest

/-- Number of idle dereferences scheduled in an action trace. -/
def countUnref : List Action → Nat
  | [] => 0
  | Action.scheduleUnref :: rest => countUnref rest + 1
  | _ :: rest => countUnref rest

/-- Number of `stealOp` operations in an operation sequence. -/
def countStealOps : List EventOp → Nat
  | [] => 0
  | EventOp.stealOp :: rest => countStealOps rest + 1
  | _ :: rest => countStealOps rest

/-- Potential tracking whether the event already reached a state from which a
waiter can no longer be spawned: 1 when resolved or waiting, 0 before. -/
def flagN (s : GoclEventPrivate) : Nat :=
  if s.already_resolved || s.waiting_event then 1 else 0

/-- Potential: 1 while the resolver function is still stored, 0 after. -/
def resolverN (s : GoclEventPrivate) : Nat :=
  if s.resolver_func.isSome then 1 else 0

/-- Potential: 1 while `unref_src_id` is still 0, 0 once it is set. -/
def unrefN (s : GoclEventPrivate) : Nat :=
  if s.unref_src_id = 0 then 1 else 0

lemma flagN_le_one (s : GoclEventPrivate) : flagN s ≤ 1 := by
  unfold flagN; split <;> simp

lemma resolverN_le_one (s : GoclEventPrivate) : resolverN s ≤ 1 := by
  unfold resolverN; split <;> simp

lemma countSpawn_append (l1 l2 : List Action) :
    countSpawn (l1 ++ l2) = countSpawn l1 + countSpawn l2 := by
  induction l1 with
  | nil => simp [countSpawn]
  | cons a rest ih => cases a <;> simp [countSpawn, ih] <;> omega

lemma countUnref_append (l1 l2 : List Action) :
    countUnref (l1 ++ l2) = countUnref l1 + countUnref l2 := by
  induction l1 with
  | nil => simp [countUnref]
  | cons a rest ih => cases a <;> simp [countUnref, ih] <;> omega

lemma countSpawn_map_notify (l : List Closure) :
    countSpawn (l.map (fun c => Action.scheduleNotify c.context c)) = 0 := by
  induction l with
  | nil => simp [countSpawn]
  | cons c rest ih => simp [countSpawn, ih]

lemma countUnref_map_notify (l : List Closure) :
    countUnref (l.map (fun c => Action.scheduleNotify c.context c)) = 0 := by
  induction l with
  | nil => simp [countUnref]
  | cons c rest ih => simp [countUnref, ih]

/-- Each step spawns waiters only against the `flagN` potential: a spawn
raises the potential from 0 to 1, and the potential never drops. -/
lemma step_flag (s : GoclEventPrivate) (op : EventOp) (s' : GoclEventPrivate)
    (acts : List Action) (st : Option Unit)
    (h : step s op = some (s', acts, st)) :
    flagN s + countSpawn acts ≤ flagN s' := by
  cases op with
  | thenOp cb ud ctx =>
      simp only [step] at h
      unfold gocl_event_then at h
      split_ifs at h with h1 h2 h3
      · simp at h
        obtain ⟨rfl, rfl, rfl⟩ := h
        simp [countSpawn]
      · simp at h
        obtain ⟨rfl, rfl, rfl⟩ := h
        simp [countSpawn, flagN, h2]
      · cases hev : s.event with
        | none => rw [hev] at h; simp at h
        | some e =>
            rw [hev] at h
            simp at h
            obtain ⟨rfl, rfl, rfl⟩ := h
            simp only [Bool.not_eq_true'] at h3
            simp [countSpawn, flagN, h2, h3]
      · simp at h
        obtain ⟨rfl, rfl, rfl⟩ := h
        simp only [Bool.not_eq_true, Bool.not_eq_false] at h3
        simp [countSpawn, flagN, h3]
  | resolveOp e =>
      simp only [step] at h
      obtain ⟨rfl, rfl, rfl⟩ := h
      unfold gocl_event_resolve
      split_ifs with h1
      · simp [countSpawn]
      · cases e with
        | none =>
            simp [countSpawn, flagN]
            split <;> simp
        | some g =>
            simp [countSpawn, flagN]
            split <;> simp
  | completedOp =>
      simp only [step, event_completed] at h
      obtain ⟨rfl, rfl, rfl⟩ := h
      simp [flagN, countSpawn_map_notify]
      split <;> simp
  | stealOp =>
      simp only [step, gocl_event_steal_resolver_func] at h
      obtain ⟨rfl, rfl, rfl⟩ := h
      simp [flagN, countSpawn]
  | idleUnrefOp src =>
      simp only [step] at h
      unfold gocl_event_idle_unref at h
      split_ifs at h with h1
      · simp at h
        obtain ⟨rfl, rfl, rfl⟩ := h
        simp [countSpawn]
      · simp at h
        obtain ⟨rfl, rfl, rfl⟩ := h
        simp [flagN, countSpawn]

/-- Each step conserves the resolver potential: a successful steal moves it
out of the state, nothing restores it, and only `stealOp` returns it. -/
lemma step_resolver (s : GoclEventPrivate) (op : EventOp) (s' : GoclEventPrivate)
    (acts : List Action) (st : Option Unit)
    (h : step s op = some (s', acts, st)) :
    (if st.isSome then 1 else 0) + resolverN s' = resolverN s ∧
    (op ≠ EventOp.stealOp → st = none) ∧
    (op = EventOp.stealOp → s'.resolver_func = none) := by
  cases op with
  | thenOp cb ud ctx =>
      simp only [step] at h
      unfold gocl_event_then at h
      split_ifs at h with h1 h2 h3
      · simp at h
        obtain ⟨rfl, rfl, rfl⟩ := h
        simp
      · simp at h
        obtain ⟨rfl, rfl, rfl⟩ := h
        simp
      · cases hev : s.event with
        | none => rw [hev] at h; simp at h
        | some e =>
            rw [hev] at h
            simp at h
            obtain ⟨rfl, rfl, rfl⟩ := h
            simp [resolverN]
      · simp at h
        obtain ⟨rfl, rfl, rfl⟩ := h
        simp
  | resolveOp e =>
      simp only [step] at h
      obtain ⟨rfl, rfl, rfl⟩ := h
      refine ⟨?_, fun _ => rfl, fun hc => by cases hc⟩
      have hpres : resolverN (gocl_event_resolve s e) = resolverN s := by
        unfold gocl_event_resolve
        split_ifs with h1
        · rfl
        · cases e <;> simp [resolverN]
      simp [hpres]
  | completedOp =>
      simp only [step, event_completed] at h
      obtain ⟨rfl, rfl, rfl⟩ := h
      refine ⟨by simp [resolverN], fun _ => rfl, fun hc => by cases hc⟩
  | stealOp =>
      simp only [step, gocl_event_steal_resolver_func] at h
      obtain ⟨rfl, rfl, rfl⟩ := h
      refine ⟨?_, fun hc => absurd rfl hc, fun _ => rfl⟩
      cases hr : s.resolver_func <;> simp [resolverN, hr]
  | idleUnrefOp src =>
      simp only [step] at h
      unfold gocl_event_idle_unref at h
      split_ifs at h with h1
      · simp at h
        obtain ⟨rfl, rfl, rfl⟩ := h
        simp
      · simp at h
        obtain ⟨rfl, rfl, rfl⟩ := h
        simp [resolverN]

/-- Each step schedules idle dereferences only against the `unrefN`
potential, provided `timeout_add` never returns a source id of 0. -/
lemma step_unref (s : GoclEventPrivate) (op : EventOp) (s' : GoclEventPrivate)
    (acts : List Action) (st : Option Unit)
    (h : step s op = some (s', acts, st))
    (hsrc : ∀ i, op = EventOp.idleUnrefOp i → i ≠ 0) :
    countUnref acts + unrefN s' ≤ unrefN s := by
  cases op with
  | thenOp cb ud ctx =>
      simp only [step] at h
      unfold gocl_event_then at h
      split_ifs at h with h1 h2 h3
      · simp at h
        obtain ⟨rfl, rfl, rfl⟩ := h
        simp [countUnref]
      · simp at h
        obtain ⟨rfl, rfl, rfl⟩ := h
        simp [countUnref]
      · cases hev : s.event with
        | none => rw [hev] at h; simp at h
        | some e =>
            rw [hev] at h
            simp at h
            obtain ⟨rfl, rfl, rfl⟩ := h
            simp [countUnref, unrefN]
      · simp at h
        obtain ⟨rfl, rfl, rfl⟩ := h
        simp [countUnref]
  | resolveOp e =>
      simp only [step] at h
      obtain ⟨rfl, rfl, rfl⟩ := h
      unfold gocl_event_resolve
      split_ifs with h1
      · simp [countUnref]
      · cases e <;> simp [countUnref, unrefN]
  | completedOp =>
      simp only [step, event_completed] at h
      obtain ⟨rfl, rfl, rfl⟩ := h
      simp [countUnref_map_notify, unrefN]
  | stealOp =>
      simp only [step, gocl_event_steal_resolver_func] at h
      obtain ⟨rfl, rfl, rfl⟩ := h
      simp [countUnref, unrefN]
  | idleUnrefOp src =>
      simp only [step] at h
      unfold gocl_event_idle_unref at h
      split_ifs at h with h1
      · simp at h
        obtain ⟨rfl, rfl, rfl⟩ := h
        simp [countUnref]
      · simp at h
        obtain ⟨rfl, rfl, rfl⟩ := h
        have hz : src ≠ 0 := hsrc src rfl
        push_neg at h1
        simp [countUnref, unrefN, h1, hz]

/-- No step emits a `scheduleUnref` action except `idleUnrefOp`, and no step
resets `unref_src_id`; run-level consequence of `step_unref`. -/
lemma run_unref (ops : List EventOp) : ∀ s r, run s ops = some r →
    (∀ i, EventOp.idleUnrefOp i ∈ ops → i ≠ 0) →
    countUnref r.actions + unrefN r.state ≤ unrefN s := by
  induction ops with
  | nil =>
      intro s r h _
      simp only [run, Option.some.injEq] at h
      subst h
      simp [countUnref]
  | cons op rest ih =>
      intro s r h hsrc
      simp only [run] at h
      cases hstep : step s op with
      | none => simp [run, hstep] at h
      | some trip =>
          obtain ⟨s1, acts, stole⟩ := trip
          cases hrun : run s1 rest with
          | none => simp [run, hstep, hrun] at h
          | some r1 =>
              simp only [run, hstep, hrun, Option.some.injEq] at h
              subst h
              have h1 := step_unref s op s1 acts stole hstep
                (fun i hi => hsrc i (by rw [hi]; exact List.mem_cons_self _ _))
              have h2 := ih s1 r1 hrun
                (fun i hi => hsrc i (List.mem_cons_of_mem _ hi))
              simp only [countUnref_append]
              omega

/-- Run-level consequence of `step_flag`: the spawn count is bounded by the
final flag potential. -/
lemma run_flag (ops : List EventOp) : ∀ s r, run s ops = some r →
    flagN s + countSpawn r.actions ≤ flagN r.state := by
  induction ops with
  | nil =>
      intro s r h
      simp only [run, Option.some.injEq] at h
      subst h
      simp [countSpawn]
  | cons op rest ih =>
      intro s r h
      simp only [run] at h
      cases hstep : step s op with
      | none => simp [run, hstep] at h
      | some trip =>
          obtain ⟨s1, acts, stole⟩ := trip
          cases hrun : run s1 rest with
          | none => simp [run, hstep, hrun] at h
          | some r1 =>
              simp only [run, hstep, hrun, Option.some.injEq] at h
              subst h
              have h1 := step_flag s op s1 acts stole hstep
              have h2 := ih s1 r1 hrun
              simp only [countSpawn_append]
              omega

/-- Run-level conservation of the resolver potential. -/
lemma run_steals_conserve (ops : List EventOp) : ∀ s r, run s ops = some r →
    r.steals + resolverN r.state = resolverN s := by
  induction ops with
  | nil =>
      intro s r h
      simp only [run, Option.some.injEq] at h
      subst h
      simp
  | cons op rest ih =>
      intro s r h
      simp only [run] at h
      cases hstep : step s op with
      | none => simp [run, hstep] at h
      | some trip =>
          obtain ⟨s1, acts, stole⟩ := trip
          cases hrun : run s1 rest with
          | none => simp [run, hstep, hrun] at h
          | some r1 =>
              simp only [run, hstep, hrun, Option.some.injEq] at h
              subst h
              have h1 := (step_resolver s op s1 acts stole hstep).1
              have h2 := ih s1 r1 hrun
              simp only []
              omega

/-- Once any `stealOp` has executed, the stored resolver is gone for good. -/
lemma run_resolver_cleared (ops : List EventOp) : ∀ s r, run s ops = some r →
    (countStealOps ops ≥ 1 ∨ s.resolver_func = none) →
    r.state.resolver_func = none := by
  induction ops with
  | nil =>
      intro s r h hc
      simp only [run, Option.some.injEq] at h
      subst h
      rcases hc with hc | hc
      · simp [countStealOps] at hc
      · exact hc
  | cons op rest ih =>
      intro s r h hc
      simp only [run] at h
      cases hstep : step s op with
      | none => simp [run, hstep] at h
      | some trip =>
          obtain ⟨s1, acts, stole⟩ := trip
          cases hrun : run s1 rest with
          | none => simp [run, hstep, hrun] at h
          | some r1 =>
              simp only [run, hstep, hrun, Option.some.injEq] at h
              subst h
              have hres := step_resolver s op s1 acts stole hstep
              by_cases hop : op = EventOp.stealOp
              · have hclear := hres.2.2 hop
                exact ih s1 r1 hrun (Or.inr hclear)
              · rcases hc with hc | hc
                · have hcount : countStealOps (op :: rest) = countStealOps rest := by
                    cases op <;> simp [countStealOps] <;> exact absurd rfl hop
                  rw [hcount] at hc
                  exact ih s1 r1 hrun (Or.inl hc)
                · have h1 := hres.1
                  have h2 := hres.2.1 hop
                  subst h2
                  have hn : s1.resolver_func = none := by
                    cases hr1 : s1.resolver_func with
                    | none => rfl
                    | some u =>
                        rw [show resolverN s = 0 from by simp [resolverN, hc]] at h1
                        rw [show resolverN s1 = 1 from by simp [resolverN, hr1]] at h1
                        simp at h1
                  exact ih s1 r1 hrun (Or.inr hn)

/-- If the trace contains no `stealOp`, no steal succeeds. -/
lemma run_no_steal (ops : List EventOp) : ∀ s r, run s ops = some r →
    countStealOps ops = 0 → r.steals = 0 := by
  induction ops with
  | nil =>
      intro s r h _
      simp only [run, Option.some.injEq] at h
      subst h
      rfl
  | cons op rest ih =>
      intro s r h hc
      simp only [run] at h
      cases hstep : step s op with
      | none => simp [run, hstep] at h
      | some trip =>
          obtain ⟨s1, acts, stole⟩ := trip
          cases hrun : run s1 rest with
          | none => simp [run, hstep, hrun] at h
          | some r1 =>
              simp only [run, hstep, hrun, Option.some.injEq] at h
              subst h
              have hop : op ≠ EventOp.stealOp := by
                intro he
                subst he
                simp [countStealOps] at hc
              have hcount : countStealOps (op :: rest) = countStealOps rest := by
                cases op <;> simp [countStealOps] <;> exact absurd rfl hop
              rw [hcount] at hc
              have hst := (step_resolver s op s1 acts stole hstep).2.1 hop
              have := ih s1 r1 hrun hc
              simp [hst, this]

/-- C1: the claim fails on the code. Registering a continuation while the
event is pending with the waiter already running hits no branch of
`gocl_event_then` (the function has no final else): the closure is dropped,
never appended to `closure_list`, and after completion only the first
continuation is scheduled. Concretely: on a pending event with native handle
5, registering ⟨1,10,0⟩ spawns the waiter and queues it, registering
⟨2,20,0⟩ changes nothing, and completion schedules only ⟨1,10,0⟩. -/
theorem gocl_event_then_drops_second_continuation :
    run (gocl_event_new (some 1) (some 5))
      [EventOp.thenOp 1 10 0, EventOp.thenOp 2 20 0, EventOp.completedOp] =
    some ⟨{ gocl_event_new (some 1) (some 5) with
              already_resolved := true
              waiting_event := false
              closure_list := []
              thread := true },
          [Action.spawnWaiter, Action.scheduleNotify 0 ⟨1, 10, 0⟩], 0⟩ := rfl

/-- C2: the claim fails on the code for the kernel path. When
`clEnqueueNDRangeKernel` fails (here CL_OUT_OF_RESOURCES = -5),
`gocl_kernel_run_in_device` returns an event that is still pending, with no
stored error and no native handle, and whose resolver is gone: the failure
branch steals the already-stolen resolver (obtaining NULL) instead of
calling it. The buffer path, by contrast, behaves as claimed: on the same
failure `gocl_buffer_read` returns an event already resolved with the
translated error, and its trace spawns no waiter. -/
theorem gocl_kernel_run_in_device_failure_pending :
    ((gocl_kernel_run_in_device (some 1) none (-5) 7 3).fst.already_resolved = false ∧
     (gocl_kernel_run_in_device (some 1) none (-5) 7 3).fst.error = none ∧
     (gocl_kernel_run_in_device (some 1) none (-5) 7 3).fst.event = none ∧
     (gocl_kernel_run_in_device (some 1) none (-5) 7 3).fst.resolver_func = none) ∧
    ((gocl_buffer_read 1 (-5) 7 [] 3).fst.already_resolved = true ∧
     (gocl_buffer_read 1 (-5) 7 [] 3).fst.error = some ⟨-5, "Out of resources"⟩ ∧
     countSpawn (gocl_buffer_read 1 (-5) 7 [] 3).snd = 0) := by
  refine ⟨⟨rfl, rfl, rfl, rfl⟩, rfl, ?_, rfl⟩
  rfl

/-- C3: the Pending-to-Resolved transition happens at most once: a second
call of `gocl_event_resolve` is rejected by the `g_return_if_fail` guard and
returns without effect, leaving the whole state (resolution flag and stored
error included) exactly as the first call left it. -/
theorem gocl_event_resolve_at_most_once (s : GoclEventPrivate)
    (e1 e2 : Option GErr) :
    gocl_event_resolve (gocl_event_resolve s e1) e2 = gocl_event_resolve s e1 := by
  unfold gocl_event_resolve
  by_cases h : s.already_resolved
  · simp [h]
  · cases e1 <;> simp [h]

/-- C4: exactly-once resolver extraction: over any completed operation
sequence on a freshly constructed event, the number of
`gocl_event_steal_resolver_func` calls that obtain the resolver equals
`min(number of steal calls, 1)`: the first call returns the capability and
clears it, every subsequent call returns NULL. -/
theorem gocl_event_steal_resolver_func_once (q ev : Option Nat)
    (ops : List EventOp) (r : RunResult)
    (h : run (gocl_event_new q ev) ops = some r) :
    r.steals = min (countStealOps ops) 1 := by
  have hcons := run_steals_conserve ops (gocl_event_new q ev) r h
  have hres : resolverN (gocl_event_new q ev) = 1 := by
    simp [resolverN, gocl_event_new]
  rw [hres] at hcons
  rcases Nat.eq_zero_or_pos (countStealOps ops) with hz | hpos
  · rw [hz]
    simp [run_no_steal ops _ r h hz]
  · have hcl := run_resolver_cleared ops _ r h (Or.inl hpos)
    have hz : resolverN r.state = 0 := by simp [resolverN, hcl]
    rw [hz] at hcons
    rw [Nat.min_eq_right hpos]
    omega

/-- C4 witness: two steals on a fresh event: the first obtains the
resolver, the second does not. -/
theorem gocl_event_steal_resolver_func_once_witness :
    (RunResult.mk { gocl_event_new none none with resolver_func := none } [] 1).steals =
      min (countStealOps [EventOp.stealOp, EventOp.stealOp]) 1 :=
  gocl_event_steal_resolver_func_once none none
    [EventOp.stealOp, EventOp.stealOp] _ rfl

/-- C5: at most one background waiter thread is ever spawned per event: over
any completed operation sequence on a freshly constructed event, the action
trace contains at most one `spawnWaiter`. -/
theorem gocl_event_single_waiter (q ev : Option Nat)
    (ops : List EventOp) (r : RunResult)
    (h : run (gocl_event_new q ev) ops = some r) :
    countSpawn r.actions ≤ 1 := by
  have h1 := run_flag ops (gocl_event_new q ev) r h
  have h2 := flagN_le_one r.state
  have h3 : flagN (gocl_event_new q ev) = 0 := by
    simp [flagN, gocl_event_new]
  omega

/-- C5 witness: two `then` registrations on a pending event spawn exactly
one waiter. -/
theorem gocl_event_single_waiter_witness :
    countSpawn (RunResult.mk
      { gocl_event_new none (some 5) with
          waiting_event := true
          closure_list := [⟨1, 0, 0⟩]
          thread := true }
      [Action.spawnWaiter] 0).actions ≤ 1 :=
  gocl_event_single_waiter none (some 5)
    [EventOp.thenOp 1 0 0, EventOp.thenOp 2 0 0] _ rfl

/-- C6: `gocl_event_then` on an already-resolved event never invokes the
callback inline on the caller's stack: the state is unchanged and the only
emitted effect is an idle-source attach on the registering context (no
`invokeCallback`, no `spawnWaiter` in the action list); when that source
later fires, the callback is invoked with the event's stored error. -/
theorem gocl_event_then_resolved_schedules (s : GoclEventPrivate)
    (cb ud ctx : Nat) (hcb : cb ≠ 0) (h : s.already_resolved = true) :
    gocl_event_then s cb ud ctx =
      some (s, [Action.scheduleNotify ctx ⟨cb, ud, ctx⟩]) ∧
    notify_event_completed_in_caller_context s ⟨cb, ud, ctx⟩ =
      Action.invokeCallback ⟨cb, ud, ctx⟩ s.error := by
  refine ⟨?_, rfl⟩
  unfold gocl_event_then
  simp [hcb, h]

/-- C6 witness: a `then` on an event resolved with a stored error only
schedules, and delivery carries that error. -/
theorem gocl_event_then_resolved_schedules_witness :
    gocl_event_then
        (gocl_event_resolve (gocl_event_new none none)
          (some ⟨-4, "Memory object allocation failure"⟩)) 1 2 3 =
      some (gocl_event_resolve (gocl_event_new none none)
              (some ⟨-4, "Memory object allocation failure"⟩),
            [Action.scheduleNotify 3 ⟨1, 2, 3⟩]) ∧
    notify_event_completed_in_caller_context
        (gocl_event_resolve (gocl_event_new none none)
          (some ⟨-4, "Memory object allocation failure"⟩)) ⟨1, 2, 3⟩ =
      Action.invokeCallback ⟨1, 2, 3⟩
        (gocl_event_resolve (gocl_event_new none none)
          (some ⟨-4, "Memory object allocation failure"⟩)).error :=
  gocl_event_then_resolved_schedules _ 1 2 3 (by decide) rfl

/-- C7: waiter-driven completion stores no error: the waiter thread's effect
is the same for any two native wait statuses (the status is discarded), and
`event_completed` leaves the error field untouched, so an event that was
pending with no stored error ends up Resolved with error = none and every
queued continuation is later delivered with error = none. -/
theorem waiter_completion_error_free (s : GoclEventPrivate)
    (w1 w2 : ClInt) (h : s.error = none) :
    wait_event_thread_func w1 = wait_event_thread_func w2 ∧
    (event_completed s).fst.already_resolved = true ∧
    (event_completed s).fst.error = none ∧
    ∀ c : Closure,
      notify_event_completed_in_caller_context (event_completed s).fst c =
        Action.invokeCallback c none := by
  refine ⟨rfl, rfl, ?_, ?_⟩
  · simp [event_completed, h]
  · intro c
    simp [notify_event_completed_in_caller_context, event_completed, h]

/-- C7 witness: a fresh pending event with a native handle, completed by the
waiter, resolves error-free for any wait statuses. -/
theorem waiter_completion_error_free_witness :
    wait_event_thread_func (-5) = wait_event_thread_func 0 ∧
    (event_completed (gocl_event_new none (some 4))).fst.already_resolved = true ∧
    (event_completed (gocl_event_new none (some 4))).fst.error = none ∧
    ∀ c : Closure,
      notify_event_completed_in_caller_context
          (event_completed (gocl_event_new none (some 4))).fst c =
        Action.invokeCallback c none :=
  waiter_completion_error_free (gocl_event_new none (some 4)) (-5) 0 rfl

/-- C8: a synchronous dispatch (`gocl_buffer_read_sync`) creates no event
(its result carries no event state and no actions); it succeeds exactly when
the native status is CL_SUCCESS, any non-zero status mapping to FALSE, and
the result never depends on the previous contents of the process-wide
last-error slot (which the call clears first). -/
theorem gocl_buffer_read_sync_success_iff (err_code : ClInt)
    (l l' : Option GErr) :
    ((gocl_buffer_read_sync err_code l).fst = true ↔ err_code = CL_SUCCESS) ∧
    gocl_buffer_read_sync err_code l = gocl_buffer_read_sync err_code l' := by
  refine ⟨?_, rfl⟩
  unfold gocl_buffer_read_sync gocl_error_check_opencl_internal
  by_cases h : err_code = CL_SUCCESS <;> simp [h]

/-- C9: registering `then` on an unresolved, not-yet-waiting event whose
native handle is NULL hits the fatal `g_assert (priv->event != NULL)` in
the waiter-spawning branch: the model returns `none` (process abort). -/
theorem gocl_event_then_null_handle_asserts (s : GoclEventPrivate)
    (cb ud ctx : Nat) (hcb : cb ≠ 0)
    (hres : s.already_resolved = false) (hw : s.waiting_event = false)
    (hev : s.event = none) :
    gocl_event_then s cb ud ctx = none := by
  unfold gocl_event_then
  simp [hcb, hres, hw, hev]

/-- C9 witness: a fresh event with no native handle aborts on `then`. -/
theorem gocl_event_then_null_handle_asserts_witness :
    gocl_event_then (gocl_event_new none none) 1 0 0 = none :=
  gocl_event_then_null_handle_asserts (gocl_event_new none none) 1 0 0
    (by decide) rfl rfl rfl

/-- C10: `gocl_event_idle_unref` is idempotent over the event's lifetime:
over any completed operation sequence on a freshly constructed event in
which `timeout_add` returns only nonzero source ids, at most one idle
dereference is ever scheduled in total (the guard `unref_src_id` is set once
and nothing resets it). -/
theorem gocl_event_idle_unref_at_most_once (q ev : Option Nat)
    (ops : List EventOp) (r : RunResult)
    (h : run (gocl_event_new q ev) ops = some r)
    (hsrc : ∀ i, EventOp.idleUnrefOp i ∈ ops → i ≠ 0) :
    countUnref r.actions ≤ 1 := by
  have h1 := run_unref ops (gocl_event_new q ev) r h hsrc
  have h2 : unrefN (gocl_event_new q ev) = 1 := by
    simp [unrefN, gocl_event_new]
  omega

/-- C10 witness: two idle-unref calls schedule a single dereference. -/
theorem gocl_event_idle_unref_at_most_once_witness :
    countUnref (RunResult.mk
      { gocl_event_new none none with unref_src_id := 5 }
      [Action.scheduleUnref] 0).actions ≤ 1 :=
  gocl_event_idle_unref_at_most_once none none
    [EventOp.idleUnrefOp 5, EventOp.idleUnrefOp 7] _ rfl
    (by
      intro i hi
      simp at hi
      rcases hi with rfl | rfl <;> decide)

end Gocl
